import Mathlib

/-
Verification of the zvm-helper provisioning core.

Shallow embedding of the Rust sources:
  - src/config.rs : configuration data model, disk-target resolution
    (InstallTarget), build-to-live image resolution (From<&BuildImages>)
  - src/images.rs : eager artifact download (download_images / download)
  - src/ipl.rs    : parameter-line synthesis (parm) and the guest transfer
    orchestrator (ipl_zvm_guest / enable_vmur_dev / clear / send / punch)

Modelling conventions:
  - Rust String is Lean String; Url (the url crate) is modelled as a record
    of scheme, host and path, with the operations the sources use (join,
    from_file_path, to_file_path, as_str) given the behaviour the url crate
    has on the hierarchical http/file URLs this program manipulates.
  - Ambient process state read by the sources (current working directory)
    is passed as an explicit parameter named cwd.
  - Fallible Rust code returns Except String; Rust panics reached by the
    sources (Option::unwrap on None, and the unwrap of the generate results
    in From<&BuildImages>) are modelled as Except.error, since both abort
    the run at the same program point.
  - External commands and the filesystem are modelled by oracles (World,
    FetchEnv) saying which invocations succeed; each invocation is recorded
    in an event trace so that ordering and abort behaviour are provable.
-/

namespace ZvmHelper

/-- str::starts_with, computed on the character list so that proofs can
evaluate it. -/
def strStartsWith (s p : String) : Bool :=
  p.data.isPrefixOf s.data

/-- str::ends_with, computed on the character list so that proofs can
evaluate it. -/
def strEndsWith (s p : String) : Bool :=
  p.data.isSuffixOf s.data

/-- Model of reqwest::Url restricted to the hierarchical http/file URLs the
program manipulates: a scheme, a host (empty for file URLs) and an absolute
path. -/
structure Url where
  scheme : String
  host : String
  path : String
deriving DecidableEq, Repr

/-- Url::as_str / Display: scheme://host + path. -/
def Url.asStr (u : Url) : String :=
  u.scheme ++ "://" ++ u.host ++ u.path

/-- The portion of a path up to and including its last slash (empty when
there is no slash); used to model how Url::join resolves a relative file
name against a base URL (the last path segment of the base is replaced). -/
def dirOf (path : String) : String :=
  ⟨(path.data.reverse.dropWhile (fun c => c != '/')).reverse⟩

/-- Url::join with a plain relative file name: replaces the last path
segment of the base. On the hierarchical URLs of this model the join the
sources perform cannot fail, so the with_context error path of config.rs is
unreachable; the Except result mirrors the Rust Result type. -/
def Url.join (u : Url) (name : String) : Except String Url :=
  .ok { u with path := dirOf u.path ++ name }

/-- Url::from_file_path: succeeds exactly on absolute paths. -/
def Url.fromFilePath (p : String) : Except String Url :=
  if strStartsWith p "/" then .ok ⟨"file", "", p⟩ else .error ("parsing " ++ p)

/-- Url::to_file_path followed by the to_str conversion in send (ipl.rs):
succeeds on file URLs with an empty host and absolute path. -/
def Url.toFilePath (u : Url) : Except String String :=
  if u.host = "" && strStartsWith u.path "/" then .ok u.path
  else .error ("converting " ++ u.asStr)

/-- PathBuf::join of a directory with a relative file name. -/
def pathJoin (dir name : String) : String :=
  if strEndsWith dir "/" then dir ++ name else dir ++ "/" ++ name

/-- config.rs CoreOsVariant. -/
inductive CoreOsVariant where
  | Fedora
  | RedHat
deriving DecidableEq, Repr

/-- config.rs BuildImages; id is u32 in the source, modelled as Nat (its
only use is Display via unwrap_or_default, which never overflows). -/
structure BuildImages where
  url : Option Url
  variant : CoreOsVariant
  version : String
  date : String
  time : Option String
  id : Option Nat
deriving DecidableEq, Repr

/-- config.rs LiveImages. -/
structure LiveImages where
  live_kernel : Url
  live_initrd : Url
  live_rootfs : Url
deriving DecidableEq, Repr

/-- config.rs DasdDisk. -/
structure DasdDisk where
  dasd : String
deriving DecidableEq, Repr

/-- config.rs FbaDisk. -/
structure FbaDisk where
  fba : String
deriving DecidableEq, Repr

/-- config.rs ScsiDisk. -/
structure ScsiDisk where
  scsi : String
deriving DecidableEq, Repr

/-- config.rs MultipathDisks. -/
structure MultipathDisks where
  scsi : List String
deriving DecidableEq, Repr

/-- config.rs DiskConfig. -/
inductive DiskConfig where
  | Dasd (d : DasdDisk)
  | Fba (f : FbaDisk)
  | Scsi (s : ScsiDisk)
  | Multipath (m : MultipathDisks)
deriving DecidableEq, Repr

/-- config.rs ImagesConfig. -/
inductive ImagesConfig where
  | Build (b : BuildImages)
  | Live (l : LiveImages)
deriving DecidableEq, Repr

/-- config.rs NetworkConfig. -/
structure NetworkConfig where
  ip : String
  id : String
  gw : String
  mask : String
  hostname : String
  nic : String
  dhcp : String
  nameserver : String
  znet : String
deriving DecidableEq, Repr

/-- config.rs ZvmConfig. -/
structure ZvmConfig where
  zvm : String
  ignition : Url
  dfltcc : Option Bool
  cmdline : Option String
deriving DecidableEq, Repr

/-- config.rs Config. -/
structure Config where
  zvm : ZvmConfig
  network : NetworkConfig
  target : DiskConfig
  images : ImagesConfig
deriving DecidableEq, Repr

/-- impl InstallTarget for DasdDisk (config.rs): ensure! that the id starts
with the literal prefix 0.0., then prepend the CCW by-path directory. The
anyhow ensure! message is modelled by the fixed string used here. -/
def DasdDisk.install_target (d : DasdDisk) : Except String String :=
  if strStartsWith d.dasd "0.0." then .ok ("/dev/disk/by-path/ccw-" ++ d.dasd)
  else .error "Condition failed"

/-- impl InstallTarget for FbaDisk (config.rs): unconditionally prepend the
CCW by-path directory. -/
def FbaDisk.install_target (f : FbaDisk) : Except String String :=
  .ok ("/dev/disk/by-path/ccw-" ++ f.fba)

/-- impl InstallTarget for ScsiDisk (config.rs): constant device name. -/
def ScsiDisk.install_target (_ : ScsiDisk) : Except String String :=
  .ok "sda"

/-- impl InstallTarget for MultipathDisks (config.rs): ensure! at least two
members, then the constant device-mapper name. -/
def MultipathDisks.install_target (m : MultipathDisks) : Except String String :=
  if m.scsi.length > 1 then .ok "/dev/mapper/mpatha"
  else .error "Condition failed"

/-- Dispatch of the InstallTarget trait over DiskConfig, as performed by the
match in parm (ipl.rs). -/
def DiskConfig.install_target : DiskConfig → Except String String
  | .Dasd d => d.install_target
  | .Fba f => f.install_target
  | .Scsi s => s.install_target
  | .Multipath m => m.install_target

/-- The name-generation part of the generate closure in
From<&BuildImages> for LiveImages (config.rs). Fedora: the id falls back to
its Default (0) via unwrap_or_default. RedHat: the source unwraps
images.time; the panic on a missing time is modelled as an error. -/
def buildName (b : BuildImages) (image : String) : Except String String :=
  match b.variant with
  | .Fedora =>
    .ok ("fedora-coreos-" ++ b.version ++ "." ++ b.date ++ ".dev." ++
      toString (b.id.getD 0) ++ "-live-" ++ image)
  | .RedHat =>
    match b.time with
    | some t => .ok ("rhcos-" ++ b.version ++ "." ++ b.date ++ t ++ "-0-live-" ++ image)
    | none => .error "missing build time"

/-- The generate closure of From<&BuildImages> for LiveImages (config.rs):
build the file name, then join it against the builder URL if present, else
resolve it against the current working directory (passed explicitly as cwd)
as a file URL. -/
def BuildImages.generate (cwd : String) (b : BuildImages) (image : String) :
    Except String Url := do
  let name ← buildName b image
  match b.url with
  | some url => url.join name
  | none => Url.fromFilePath (pathJoin cwd name)

/-- From<&BuildImages> for LiveImages (config.rs): generate the three
artifact locations; the source unwraps each generate result, so a failure
(a Rust panic) is modelled as an error. -/
def LiveImages.ofBuild (cwd : String) (b : BuildImages) : Except String LiveImages := do
  let k ← b.generate cwd "kernel-s390x"
  let i ← b.generate cwd "initramfs.s390x.img"
  let r ← b.generate cwd "rootfs.s390x.img"
  .ok ⟨k, i, r⟩

/-- PathBuf::file_name as used by download (images.rs): the last non-empty
component of the path (trailing separators are ignored), none for an empty
or root path or a path ending in the parent component. -/
def fileName (path : String) : Option String :=
  let name :=
    ((path.data.reverse.dropWhile (fun c => c == '/')).takeWhile
      (fun c => c != '/')).reverse
  if name = [] then none
  else if name = "..".data then none
  else some ⟨name⟩

/-- The filesystem and network oracle for download (images.rs): the working
directory, which local files exist, and which network fetches complete
(covering the request, the status check and the local copy, which the
source treats as one fatal fetch path). -/
structure FetchEnv where
  cwd : String
  fileExists : String → Bool
  fetchOk : String → Bool

/-- An observable network request issued by download. -/
inductive DlEvent where
  | fetch (url : String)
deriving DecidableEq, Repr

/-- download (images.rs): resolve the basename of the URL path against the
working directory; if that file exists, succeed without any network
request; otherwise a file-scheme URL is a fatal missing-file error, and any
other URL is fetched over the network. The returned list records the
network requests issued. -/
def download (env : FetchEnv) (url : Url) : List DlEvent × Except String Unit :=
  match fileName url.path with
  | none => ([], .error ("getting filename " ++ url.path))
  | some name =>
    let path := pathJoin env.cwd name
    if env.fileExists path then ([], .ok ())
    else if url.scheme = "file" then ([], .error ("No such file: " ++ path))
    else if env.fetchOk url.asStr then ([DlEvent.fetch url.asStr], .ok ())
    else ([DlEvent.fetch url.asStr], .error ("fetching " ++ url.asStr))

/-- download_live_images (images.rs): download the kernel, then the rootfs,
then the initrd, stopping at the first failure. -/
def download_live_images (env : FetchEnv) (live : LiveImages) :
    List DlEvent × Except String Unit :=
  let (t1, r1) := download env live.live_kernel
  match r1 with
  | .error e => (t1, .error e)
  | .ok _ =>
    let (t2, r2) := download env live.live_rootfs
    match r2 with
    | .error e => (t1 ++ t2, .error e)
    | .ok _ =>
      let (t3, r3) := download env live.live_initrd
      (t1 ++ t2 ++ t3, r3)

/-- download_images (images.rs): resolve a Build source through
From<&BuildImages> (whose unwrap panics are modelled as errors), then
download the live images. -/
def download_images (env : FetchEnv) (images : ImagesConfig) :
    List DlEvent × Except String Unit :=
  match images with
  | .Build b =>
    match LiveImages.ofBuild env.cwd b with
    | .ok live => download_live_images env live
    | .error e => ([], .error e)
  | .Live live => download_live_images env live

/-- The rootfs block of parm (ipl.rs): for a Build source, resolve through
From<&BuildImages> and render the rootfs URL; for a Live source, render it
directly. -/
def rootfsOf (cwd : String) (cfg : Config) : Except String String :=
  match cfg.images with
  | .Build b => (LiveImages.ofBuild cwd b).map (fun imgs => imgs.live_rootfs.asStr)
  | .Live imgs => .ok imgs.live_rootfs.asStr

/-- Vec::join(" ") as used in the Multipath arm of parm (ipl.rs), and the
space-joining of token lists. -/
def joinSpace : List String → String
  | [] => ""
  | [x] => x
  | x :: y :: xs => x ++ " " ++ joinSpace (y :: xs)

/-- parm (ipl.rs): the boot parameter line, accumulated by push_str in the
source and by appends here, in the same order: networking, installer
directives, target-specific clauses, the optional dfltcc toggle, the
optional free-form extra arguments. -/
def parm (cwd : String) (cfg : Config) : Except String String := do
  let s := "rd.neednet=1 rd.znet=" ++ cfg.network.znet ++ " ip=" ++
    cfg.network.ip ++ ":" ++ cfg.network.id ++ ":" ++ cfg.network.gw ++ ":" ++
    cfg.network.mask ++ ":" ++ cfg.network.hostname ++ ":" ++ cfg.network.nic ++
    ":" ++ cfg.network.dhcp ++ " nameserver=" ++ cfg.network.nameserver ++ " "
  let rootfs ← rootfsOf cwd cfg
  let s := s ++ "coreos.inst=yes coreos.inst.insecure=yes coreos.inst.ignition_url=" ++
    cfg.zvm.ignition.asStr ++ " coreos.live.rootfs_url=" ++ rootfs ++ " "
  let s ← match cfg.target with
    | .Dasd d => do
      let tgt ← d.install_target
      pure (s ++ "rd.dasd=" ++ d.dasd ++ " coreos.inst.install_dev=" ++ tgt)
    | .Fba f => do
      let tgt ← f.install_target
      pure (s ++ "rd.dasd=" ++ f.fba ++ " coreos.inst.install_dev=" ++ tgt)
    | .Scsi sc => do
      let tgt ← sc.install_target
      pure (s ++ "rd.zfcp=" ++ sc.scsi ++ " coreos.inst.install_dev=" ++ tgt)
    | .Multipath mp => do
      let tgt ← mp.install_target
      pure (s ++ "rd.multipath=default " ++
        joinSpace (mp.scsi.map (fun x => "rd.zfcp=" ++ x)) ++
        " coreos.inst.install_dev=" ++ tgt)
  let s := match cfg.zvm.dfltcc with
    | some b => s ++ " dfltcc=" ++ (if b then "true" else "false")
    | none => s
  let s := match cfg.zvm.cmdline with
    | some c => s ++ " " ++ c
    | none => s
  .ok s

/-- The networking tokens of the parameter line, in the order the spec
fixes for them. -/
def netTokens (cfg : Config) : List String :=
  ["rd.neednet=1",
   "rd.znet=" ++ cfg.network.znet,
   "ip=" ++ cfg.network.ip ++ ":" ++ cfg.network.id ++ ":" ++ cfg.network.gw ++
     ":" ++ cfg.network.mask ++ ":" ++ cfg.network.hostname ++ ":" ++
     cfg.network.nic ++ ":" ++ cfg.network.dhcp,
   "nameserver=" ++ cfg.network.nameserver]

/-- The installer-directive tokens of the parameter line. -/
def instTokens (cfg : Config) (rootfs : String) : List String :=
  ["coreos.inst=yes",
   "coreos.inst.insecure=yes",
   "coreos.inst.ignition_url=" ++ cfg.zvm.ignition.asStr,
   "coreos.live.rootfs_url=" ++ rootfs]

/-- The target-specific tokens of the parameter line: the device-enable
clauses (one rd.zfcp clause per id for multipath) followed by the resolved
install-device path. -/
def targetTokens (cfg : Config) (tgt : String) : List String :=
  match cfg.target with
  | .Dasd d => ["rd.dasd=" ++ d.dasd, "coreos.inst.install_dev=" ++ tgt]
  | .Fba f => ["rd.dasd=" ++ f.fba, "coreos.inst.install_dev=" ++ tgt]
  | .Scsi s => ["rd.zfcp=" ++ s.scsi, "coreos.inst.install_dev=" ++ tgt]
  | .Multipath mp =>
    "rd.multipath=default" :: mp.scsi.map (fun x => "rd.zfcp=" ++ x) ++
      ["coreos.inst.install_dev=" ++ tgt]

/-- The optional dfltcc token: nothing when unset, the literal boolean when
set. -/
def dfltccTokens (cfg : Config) : List String :=
  match cfg.zvm.dfltcc with
  | some b => ["dfltcc=" ++ (if b then "true" else "false")]
  | none => []

/-- The optional free-form trailing segment, appended verbatim. -/
def extraTokens (cfg : Config) : List String :=
  match cfg.zvm.cmdline with
  | some c => [c]
  | none => []

/-- The observable external actions of the guest transfer orchestrator
(ipl.rs), one per command invocation or file write. -/
inductive Event where
  | modprobe (module : String)
  | cioIsIgnored (id : String)
  | cioRemove (id : String)
  | chccwdev (id : String)
  | vmcpSp (zvm : String)
  | vmcpPur (zvm : String)
  | writeParm (file content : String)
  | punch (zvm target file : String)
  | xautolog (zvm : String)
deriving DecidableEq, Repr

/-- The command oracle for the orchestrator: which invocations exit
successfully, and for the cio_ignore query, whether its output reports the
device as ignored. -/
structure World where
  cmdOk : Event → Bool
  ignored : String → Bool

/-- The orchestrator computation: threads the trace of attempted actions
and the warnings printed so far, and either produces a value or aborts
with an error (the anyhow Result of the source). -/
def M (α : Type) : Type :=
  List Event × List String → (List Event × List String) × Except String α

/-- Sequencing of orchestrator computations: on an error the rest is not
run, which is the behaviour of the question-mark operator in the source. -/
def mBind {α β : Type} (x : M α) (f : α → M β) : M β := fun s =>
  match x s with
  | (s1, .ok a) => f a s1
  | (s1, .error e) => (s1, .error e)

/-- A computation with no action. -/
def mPure {α : Type} (a : α) : M α := fun s => (s, .ok a)

/-- Lift a pure fallible value into the orchestrator (the question-mark
operator applied to an already-computed Result). -/
def liftE {α : Type} (x : Except String α) : M α := fun s => (s, x)

/-- The runcmd macro of ipl.rs: record the invocation, succeed or fail
according to the oracle. -/
def runcmd (w : World) (e : Event) : M Unit := fun s =>
  ((s.1 ++ [e], s.2), if w.cmdOk e then .ok () else .error "command failed")

/-- The cio_ignore --is-ignored query in enable_vmur_dev: record the
invocation; on success report whether the output contains the ignored
marker. -/
def queryIgnored (w : World) (id : String) : M Bool := fun s =>
  ((s.1 ++ [Event.cioIsIgnored id], s.2),
    if w.cmdOk (Event.cioIsIgnored id) then .ok (w.ignored id)
    else .error "command failed")

/-- The body of the device loop in enable_vmur_dev (ipl.rs): query the
ignore list, remove the device from it if ignored, bring it online. -/
def enableDev (w : World) (id : String) : M Unit :=
  mBind (queryIgnored w id) (fun ign =>
  mBind (if ign then runcmd w (Event.cioRemove id) else mPure ())
    (fun _ => runcmd w (Event.chccwdev id)))

/-- enable_vmur_dev (ipl.rs): load the vmur module, then run the device
loop for the three fixed reader/punch device ids c, d, e (the source
for-loop, unrolled). -/
def enable_vmur_dev (w : World) : M Unit :=
  mBind (runcmd w (Event.modprobe "vmur")) (fun _ =>
  mBind (enableDev w "c") (fun _ =>
  mBind (enableDev w "d") (fun _ =>
  enableDev w "e")))

/-- clear (ipl.rs): spool the punch to the reader, then purge the reader. -/
def clear (w : World) (zvm : String) : M Unit :=
  mBind (runcmd w (Event.vmcpSp zvm)) (fun _ => runcmd w (Event.vmcpPur zvm))

/-- url_to_path (the closure in send, ipl.rs): a file URL becomes its
filesystem path; any other URL contributes the last segment of its path,
the portion after the last slash (split('/').last() on a str is never None,
so the ok_or fallback of the source is unreachable). -/
def url_to_path (url : Url) : Except String String :=
  if url.scheme = "file" then url.toFilePath
  else .ok ⟨(url.path.data.reverse.takeWhile (fun c => c != '/')).reverse⟩

/-- The image-resolution step at the top of send (ipl.rs): a Build source
goes through From<&BuildImages> (panics modelled as errors), a Live source
is used as is. -/
def resolveImages (cwd : String) (cfg : Config) : Except String LiveImages :=
  match cfg.images with
  | .Build b => LiveImages.ofBuild cwd b
  | .Live imgs => .ok imgs

/-- send (ipl.rs): resolve the images, compute the kernel and initrd local
names and the parameter line, write the parameter file, then punch the
kernel, the parameter file and the initrd under their fixed labels, in that
order. The kernel and initrd name Results are forced at their punch sites,
as the source does with the question-mark operator inside the punch
arguments. -/
def send (w : World) (cwd : String) (cfg : Config) : M Unit :=
  mBind (liftE (resolveImages cwd cfg)) (fun imgs =>
  let kernel := url_to_path imgs.live_kernel
  let initrd := url_to_path imgs.live_initrd
  mBind (liftE (parm cwd cfg)) (fun cmdline =>
  mBind (runcmd w (Event.writeParm "cmdline" cmdline)) (fun _ =>
  mBind (liftE kernel) (fun k =>
  mBind (runcmd w (Event.punch cfg.zvm.zvm "coreos.kernel" k)) (fun _ =>
  mBind (runcmd w (Event.punch cfg.zvm.zvm "coreos.parm" "cmdline")) (fun _ =>
  mBind (liftE initrd) (fun i =>
  runcmd w (Event.punch cfg.zvm.zvm "coreos.initrd" i))))))))

/-- The boot trigger at the end of ipl_zvm_guest (ipl.rs): attempt the
xautolog command; a failure is not propagated but converted into the two
operator-facing messages, and the computation still succeeds. -/
def boot (w : World) (zvm : String) : M Unit := fun s =>
  match runcmd w (Event.xautolog zvm) s with
  | (s1, .ok _) => (s1, .ok ())
  | (s1, .error e) =>
    ((s1.1, s1.2 ++ ["Starting installation failed: " ++ e,
      "Please login to zVM and IPL manually: #cp ipl c"]), .ok ())

/-- ipl_zvm_guest (ipl.rs): device setup, the reader clear twice, the
artifact transfer, then the boot trigger with its degrade-to-warning
fallback. -/
def ipl_zvm_guest (w : World) (cwd : String) (cfg : Config) : M Unit :=
  mBind (enable_vmur_dev w) (fun _ =>
  mBind (clear w cfg.zvm.zvm) (fun _ =>
  mBind (clear w cfg.zvm.zvm) (fun _ =>
  mBind (send w cwd cfg) (fun _ =>
  boot w cfg.zvm.zvm))))

/-- The actions of one iteration of the device loop, as a function of the
ignore-list oracle. -/
def devTrace (w : World) (id : String) : List Event :=
  [Event.cioIsIgnored id] ++ (if w.ignored id then [Event.cioRemove id] else []) ++
    [Event.chccwdev id]

/-- The actions of a fully successful device setup. -/
def setupTrace (w : World) : List Event :=
  Event.modprobe "vmur" :: (devTrace w "c" ++ devTrace w "d" ++ devTrace w "e")

/-- A command oracle where every invocation succeeds and no device is on
the ignore list. -/
def wAllOk : World := ⟨fun _ => true, fun _ => false⟩

/-- A command oracle failing exactly the boot trigger for guest z. -/
def wBootFail : World :=
  ⟨fun e => decide (e ≠ Event.xautolog "z"), fun _ => false⟩

/-- A command oracle failing exactly the parameter-file punch for guest z. -/
def wParmFail : World :=
  ⟨fun e => decide (e ≠ Event.punch "z" "coreos.parm" "cmdline"), fun _ => false⟩

/-- A command oracle failing exactly the spool-to-reader clear for guest z. -/
def wSpFail : World :=
  ⟨fun e => decide (e ≠ Event.vmcpSp "z"), fun _ => false⟩

/-- Sequential execution of a list of commands, each recorded and checked
as by the runcmd macro; used to reason uniformly about the straight-line
command sequence of the orchestrator. -/
def runAll (w : World) : List Event → M Unit
  | [] => mPure ()
  | e :: rest => mBind (runcmd w e) (fun _ => runAll w rest)

/-- A fetch oracle with an empty working directory and a fully available
network. -/
def envFetchAll : FetchEnv := ⟨"/tmp", fun _ => false, fun _ => true⟩

/-- A fetch oracle under which every local file already exists. -/
def envAllCached : FetchEnv := ⟨"/tmp", fun _ => true, fun _ => true⟩

/-- Sample live images with short http locations. -/
def liveSample : LiveImages :=
  ⟨⟨"http", "h", "/k"⟩, ⟨"http", "h", "/i"⟩, ⟨"http", "h", "/r"⟩⟩

/-- A sample configuration with a SCSI target and the sample live images. -/
def cfgSample : Config where
  zvm := { zvm := "z", ignition := ⟨"http", "g", "/i.ign"⟩, dfltcc := none, cmdline := none }
  network := { ip := "a", id := "b", gw := "c", mask := "d", hostname := "e",
               nic := "f", dhcp := "g", nameserver := "h", znet := "w" }
  target := .Scsi ⟨"s"⟩
  images := .Live liveSample

/-- The parameter line of the sample configuration. -/
def parmSample : String :=
  "rd.neednet=1 rd.znet=w ip=a:b:c:d:e:f:g nameserver=h coreos.inst=yes " ++
  "coreos.inst.insecure=yes coreos.inst.ignition_url=http://g/i.ign " ++
  "coreos.live.rootfs_url=http://h/r rd.zfcp=s coreos.inst.install_dev=sda"

/-- A sample RedHat build source without a build time. -/
def buildNoTime : BuildImages :=
  ⟨some ⟨"http", "h", "/"⟩, .RedHat, "413", "92", none, none⟩

/-- A sample RedHat build source with a build time. -/
def buildWithTime : BuildImages :=
  ⟨some ⟨"http", "h", "/"⟩, .RedHat, "413", "92", some "202303141019", none⟩

/- ------------------------------------------------------------------ -/
/- Theorems                                                           -/
/- ------------------------------------------------------------------ -/

/-- C2 counterexample: the claim that install_target succeeds for a Dasd
target with any id string is false: the Dasd resolver validates that the id
starts with the CCW prefix 0.0., and fails on the id abcd. -/
theorem dasd_unprefixed_id_fails :
    (DasdDisk.mk "abcd").install_target = .error "Condition failed" := rfl

/-- C2 (amended): disk-target resolution fails exactly when the Multipath
variant has fewer than 2 members or when the Dasd id does not start with
the CCW prefix 0.0. (the Dasd resolver checks this prefix); every Fba and
Scsi target succeeds for any id; a Dasd target with a 0.0.-prefixed id
resolves to the CCW-channel path incorporating the id verbatim, without
reformatting it. -/
theorem install_target_characterization :
    (∀ d : DasdDisk, strStartsWith d.dasd "0.0." = true →
      d.install_target = .ok ("/dev/disk/by-path/ccw-" ++ d.dasd)) ∧
    (∀ d : DasdDisk, strStartsWith d.dasd "0.0." = false →
      d.install_target = .error "Condition failed") ∧
    (∀ f : FbaDisk, f.install_target = .ok ("/dev/disk/by-path/ccw-" ++ f.fba)) ∧
    (∀ s : ScsiDisk, s.install_target = .ok "sda") ∧
    (∀ m : MultipathDisks, 1 < m.scsi.length →
      m.install_target = .ok "/dev/mapper/mpatha") ∧
    (∀ m : MultipathDisks, ¬ 1 < m.scsi.length →
      m.install_target = .error "Condition failed") := by
  refine ⟨fun d h => ?_, fun d h => ?_, fun f => rfl, fun s => rfl,
    fun m h => ?_, fun m h => ?_⟩ <;>
    simp [DasdDisk.install_target, MultipathDisks.install_target, h]

/-- Witness for the amended C2 theorem at concrete targets. -/
theorem install_target_characterization_witness :
    (DasdDisk.mk "0.0.1234").install_target = .ok "/dev/disk/by-path/ccw-0.0.1234" ∧
    (DasdDisk.mk "1234").install_target = .error "Condition failed" ∧
    (FbaDisk.mk "0.0.2222").install_target = .ok "/dev/disk/by-path/ccw-0.0.2222" ∧
    (ScsiDisk.mk "0.0.5000").install_target = .ok "sda" ∧
    (MultipathDisks.mk ["0.0.a", "0.0.b"]).install_target = .ok "/dev/mapper/mpatha" ∧
    (MultipathDisks.mk ["0.0.a"]).install_target = .error "Condition failed" :=
  ⟨install_target_characterization.1 _ rfl,
   install_target_characterization.2.1 _ rfl,
   install_target_characterization.2.2.1 _,
   install_target_characterization.2.2.2.1 _,
   install_target_characterization.2.2.2.2.1 _ (by decide),
   install_target_characterization.2.2.2.2.2 _ (by decide)⟩

/-- C3: a RedHat-family Build source without a time fails image resolution
with the missing-build-time failure (the source reaches it by unwrapping
the absent time); with a time supplied, every resolved filename embeds the
date immediately followed by the time, and resolution of all three
artifacts succeeds when a builder URL is present. -/
theorem redhat_build_time_required :
    (∀ cwd (b : BuildImages), b.variant = .RedHat → b.time = none →
      LiveImages.ofBuild cwd b = .error "missing build time") ∧
    (∀ (b : BuildImages) img t, b.variant = .RedHat → b.time = some t →
      buildName b img =
        .ok ("rhcos-" ++ b.version ++ "." ++ (b.date ++ t) ++ "-0-live-" ++ img)) ∧
    (∀ cwd (b : BuildImages) t u, b.variant = .RedHat → b.time = some t →
      b.url = some u → ∃ imgs, LiveImages.ofBuild cwd b = .ok imgs) := by
  refine ⟨fun cwd b h1 h2 => ?_, fun b img t h1 h2 => ?_, fun cwd b t u h1 h2 h3 => ?_⟩
  · obtain ⟨u, vr, v, d, tm, i⟩ := b
    cases h1; cases h2
    rfl
  · obtain ⟨u, vr, v, d, tm, i⟩ := b
    cases h1; cases h2
    simp only [buildName, String.append_assoc]
  · obtain ⟨ub, vr, v, d, tm, i⟩ := b
    cases h1; cases h2; cases h3
    exact ⟨_, rfl⟩

/-- Witness for C3 at a concrete RedHat build source: without a time the
resolution fails; with the time 202303141019 the rootfs filename is
rhcos-413.92202303141019-0-live-rootfs.s390x.img and resolution succeeds. -/
theorem redhat_build_time_required_witness :
    LiveImages.ofBuild "/tmp" buildNoTime = .error "missing build time" ∧
    buildName buildWithTime "rootfs.s390x.img" =
      .ok "rhcos-413.92202303141019-0-live-rootfs.s390x.img" ∧
    (∃ imgs, LiveImages.ofBuild "/tmp" buildWithTime = .ok imgs) :=
  ⟨redhat_build_time_required.1 "/tmp" buildNoTime rfl rfl,
   redhat_build_time_required.2.1 buildWithTime "rootfs.s390x.img" "202303141019" rfl rfl,
   redhat_build_time_required.2.2 "/tmp" buildWithTime "202303141019" ⟨"http", "h", "/"⟩ rfl rfl rfl⟩

/-- C9: image resolution is deterministic and idempotent: two resolutions
of the same Build source with the same date (the date and the working
directory are explicit inputs in this embedding, so resolution is a pure
function) yield byte-identical rendered locations for all three artifacts;
and a Fedora Build source with version 37, id 0 and a base location present
resolves its kernel location to base/fedora-coreos-37.date.dev.0-live-kernel-s390x. -/
theorem build_resolution_deterministic :
    (∀ cwd (b : BuildImages) imgs1 imgs2,
      LiveImages.ofBuild cwd b = .ok imgs1 → LiveImages.ofBuild cwd b = .ok imgs2 →
      imgs1.live_kernel.asStr = imgs2.live_kernel.asStr ∧
      imgs1.live_initrd.asStr = imgs2.live_initrd.asStr ∧
      imgs1.live_rootfs.asStr = imgs2.live_rootfs.asStr) ∧
    (∀ host today cwd, ∃ imgs,
      LiveImages.ofBuild cwd ⟨some ⟨"http", host, "/"⟩, .Fedora, "37", today, none, some 0⟩ =
        .ok imgs ∧
      imgs.live_kernel.asStr =
        "http://" ++ host ++ "/fedora-coreos-37." ++ today ++ ".dev.0-live-kernel-s390x") := by
  constructor
  · intro cwd b imgs1 imgs2 h1 h2
    rw [h1] at h2
    cases h2
    exact ⟨rfl, rfl, rfl⟩
  · intro host today cwd
    refine ⟨_, rfl, ?_⟩
    simp only [Url.asStr, String.append_assoc]
    rfl

/-- Witness for C9 at a concrete Fedora build source. -/
theorem build_resolution_deterministic_witness :
    (∃ imgs,
      LiveImages.ofBuild "/tmp"
          ⟨some ⟨"http", "b", "/"⟩, .Fedora, "37", "20231011", none, some 0⟩ = .ok imgs ∧
      imgs.live_kernel.asStr =
        "http://b/fedora-coreos-37.20231011.dev.0-live-kernel-s390x") ∧
    (∃ imgs1 imgs2,
      LiveImages.ofBuild "/tmp"
          ⟨some ⟨"http", "b", "/"⟩, .Fedora, "34", "20210629", none, some 0⟩ = .ok imgs1 ∧
      LiveImages.ofBuild "/tmp"
          ⟨some ⟨"http", "b", "/"⟩, .Fedora, "34", "20210629", none, some 0⟩ = .ok imgs2 ∧
      imgs1.live_kernel.asStr = imgs2.live_kernel.asStr ∧
      imgs1.live_initrd.asStr = imgs2.live_initrd.asStr ∧
      imgs1.live_rootfs.asStr = imgs2.live_rootfs.asStr) := by
  constructor
  · have h := build_resolution_deterministic.2 "b" "20231011" "/tmp"
    obtain ⟨imgs, h1, h2⟩ := h
    exact ⟨imgs, h1, by rw [h2]; rfl⟩
  · refine ⟨_, _, rfl, rfl, ?_⟩
    exact build_resolution_deterministic.1 "/tmp"
      ⟨some ⟨"http", "b", "/"⟩, .Fedora, "34", "20210629", none, some 0⟩ _ _ rfl rfl

/-- C10: a Fedora-family Build source with an absent build id resolves with
the Default id 0 (unwrap_or_default), so every filename contains the
segment .dev.0-live- exactly as if id 0 had been supplied, and the
absent-id and explicit-0 sources resolve to identical locations. -/
theorem fedora_missing_id_defaults_to_zero :
    (∀ (b : BuildImages) img, b.variant = .Fedora → b.id = none →
      buildName b img =
        .ok ("fedora-coreos-" ++ b.version ++ "." ++ b.date ++ ".dev.0-live-" ++ img)) ∧
    (∀ cwd (b : BuildImages),
      LiveImages.ofBuild cwd { b with id := none } =
        LiveImages.ofBuild cwd { b with id := some 0 }) := by
  constructor
  · intro b img h1 h2
    obtain ⟨u, vr, v, d, tm, i⟩ := b
    cases h1; cases h2
    simp only [buildName, Option.getD, String.append_assoc]
    rfl
  · intro cwd b
    obtain ⟨u, vr, v, d, tm, i⟩ := b
    cases vr
    · rfl
    · cases tm <;> rfl

/-- Witness for C10 at a concrete Fedora build source without an id. -/
theorem fedora_missing_id_defaults_to_zero_witness :
    buildName ⟨some ⟨"http", "b", "/"⟩, .Fedora, "34", "20210629", none, none⟩ "kernel-s390x" =
      .ok "fedora-coreos-34.20210629.dev.0-live-kernel-s390x" :=
  fedora_missing_id_defaults_to_zero.1
    ⟨some ⟨"http", "b", "/"⟩, .Fedora, "34", "20210629", none, none⟩ "kernel-s390x" rfl rfl

/-- C1 counterexample: the claim that the eager download step never
fetches the rootfs artifact is false: with an empty working directory,
downloading the sample live images issues a network fetch for the rootfs
location (between the kernel fetch and the initrd fetch). -/
theorem download_fetches_rootfs :
    DlEvent.fetch "http://h/r" ∈ (download_live_images envFetchAll liveSample).1 := by
  have h : (download_live_images envFetchAll liveSample).1 =
      [DlEvent.fetch "http://h/k", DlEvent.fetch "http://h/r", DlEvent.fetch "http://h/i"] := rfl
  rw [h]
  simp

/-- C1 (amended): the eager download step fetches all three artifacts, in
the order kernel, rootfs, initrd — the rootfs is fetched eagerly as well,
not only passed by reference in the parameter line: for every image set
whose basenames are absent from the working directory, whose locations are
not file-scheme and whose fetches succeed, the download step issues exactly
the three network fetches kernel, rootfs, initrd and succeeds. -/
theorem download_live_images_fetch_order :
    ∀ (env : FetchEnv) (live : LiveImages) nk nr ni,
      fileName live.live_kernel.path = some nk →
      fileName live.live_rootfs.path = some nr →
      fileName live.live_initrd.path = some ni →
      env.fileExists (pathJoin env.cwd nk) = false →
      env.fileExists (pathJoin env.cwd nr) = false →
      env.fileExists (pathJoin env.cwd ni) = false →
      ¬ live.live_kernel.scheme = "file" →
      ¬ live.live_rootfs.scheme = "file" →
      ¬ live.live_initrd.scheme = "file" →
      env.fetchOk live.live_kernel.asStr = true →
      env.fetchOk live.live_rootfs.asStr = true →
      env.fetchOk live.live_initrd.asStr = true →
      download_live_images env live =
        ([DlEvent.fetch live.live_kernel.asStr, DlEvent.fetch live.live_rootfs.asStr,
          DlEvent.fetch live.live_initrd.asStr], .ok ()) := by
  intro env live nk nr ni hk hr hi ek er ei sk sr si fk fr fi
  simp [download_live_images, download, hk, hr, hi, ek, er, ei, sk, sr, si, fk, fr, fi]

/-- Witness for the amended C1 theorem at the sample environment and
images. -/
theorem download_live_images_fetch_order_witness :
    download_live_images envFetchAll liveSample =
      ([DlEvent.fetch "http://h/k", DlEvent.fetch "http://h/r", DlEvent.fetch "http://h/i"],
        .ok ()) :=
  download_live_images_fetch_order envFetchAll liveSample "k" "r" "i"
    rfl rfl rfl rfl rfl rfl (by decide) (by decide) (by decide) rfl rfl rfl

/-- C8: a location whose basename already exists in the working directory
is not fetched: download succeeds immediately with no network request; a
file-scheme location whose resolved file does not exist fails with the
missing-file error, again with no network request. -/
theorem download_cached_or_missing_local :
    (∀ (env : FetchEnv) (url : Url) name, fileName url.path = some name →
      env.fileExists (pathJoin env.cwd name) = true →
      download env url = ([], .ok ())) ∧
    (∀ (env : FetchEnv) (url : Url) name, url.scheme = "file" →
      fileName url.path = some name →
      env.fileExists (pathJoin env.cwd name) = false →
      download env url = ([], .error ("No such file: " ++ pathJoin env.cwd name))) := by
  constructor
  · intro env url name h1 h2
    simp [download, h1, h2]
  · intro env url name h1 h2 h3
    simp [download, h1, h2, h3]

/-- Witness for C8: a cached basename is not fetched, and a missing
file-scheme artifact fails. -/
theorem download_cached_or_missing_local_witness :
    download envAllCached ⟨"http", "h", "/k"⟩ = ([], .ok ()) ∧
    download envFetchAll ⟨"file", "", "/data/k"⟩ =
      ([], .error ("No such file: " ++ pathJoin "/tmp" "k")) :=
  ⟨download_cached_or_missing_local.1 envAllCached ⟨"http", "h", "/k"⟩ "k" rfl rfl,
   download_cached_or_missing_local.2 envFetchAll ⟨"file", "", "/data/k"⟩ "k" rfl rfl rfl⟩

/-- Reduction of an Except bind over a success value. -/
theorem exceptBindOk {ε α β : Type} (a : α) (f : α → Except ε β) :
    Bind.bind (Except.ok a) f = f a := rfl

/-- Reduction of an Except bind over a pure value. -/
theorem exceptPureBind {ε α β : Type} (a : α) (f : α → Except ε β) :
    Bind.bind (pure a : Except ε α) f = f a := rfl

/-- Unfolding joinSpace over a cons with a nonempty tail. -/
theorem joinSpace_cons_ne (x : String) (l : List String) (h : l ≠ []) :
    joinSpace (x :: l) = x ++ " " ++ joinSpace l := by
  cases l with
  | nil => exact absurd rfl h
  | cons y ys => rfl

/-- joinSpace distributes over the append of nonempty lists. -/
theorem joinSpace_append (xs ys : List String) (hx : xs ≠ []) (hy : ys ≠ []) :
    joinSpace (xs ++ ys) = joinSpace xs ++ " " ++ joinSpace ys := by
  induction xs with
  | nil => exact absurd rfl hx
  | cons x t ih =>
    cases t with
    | nil =>
      cases ys with
      | nil => exact absurd rfl hy
      | cons z zs => rfl
    | cons y ts =>
      have ih2 := ih (by simp)
      have e1 : joinSpace ((x :: y :: ts) ++ ys) = x ++ " " ++ joinSpace ((y :: ts) ++ ys) := rfl
      have e2 : joinSpace (x :: y :: ts) = x ++ " " ++ joinSpace (y :: ts) := rfl
      rw [e1, ih2, e2]
      simp [String.append_assoc]

set_option maxRecDepth 8192 in
/-- C7: parameter-line synthesis is a pure function of the configuration
and the resolved images, and its output is the space-joined token string
in the fixed order: networking tokens first, then installer directives,
then the target-specific clauses followed by the install-device path, then
the dfltcc toggle only when explicitly set, then the free-form extra
arguments verbatim last. -/
theorem parm_token_order :
    ∀ (cwd : String) (cfg : Config) rootfs tgt,
      rootfsOf cwd cfg = .ok rootfs →
      cfg.target.install_target = .ok tgt →
      parm cwd cfg = .ok (joinSpace (netTokens cfg ++ instTokens cfg rootfs ++
        targetTokens cfg tgt ++ dfltccTokens cfg ++ extraTokens cfg)) := by
  intro cwd cfg rootfs tgt hr ht
  obtain ⟨⟨z, ign, dfl, extra⟩, net, target, images⟩ := cfg
  cases target with
  | Dasd d =>
    simp only [DiskConfig.install_target] at ht
    cases dfl <;> cases extra <;>
      (simp only [parm, hr, ht, exceptBindOk, exceptPureBind];
       simp only [netTokens, instTokens, targetTokens, dfltccTokens, extraTokens,
         List.cons_append, List.nil_append, List.append_nil, joinSpace,
         String.append_assoc];
       rfl)
  | Fba f =>
    simp only [DiskConfig.install_target] at ht
    cases dfl <;> cases extra <;>
      (simp only [parm, hr, ht, exceptBindOk, exceptPureBind];
       simp only [netTokens, instTokens, targetTokens, dfltccTokens, extraTokens,
         List.cons_append, List.nil_append, List.append_nil, joinSpace,
         String.append_assoc];
       rfl)
  | Scsi s =>
    simp only [DiskConfig.install_target] at ht
    cases dfl <;> cases extra <;>
      (simp only [parm, hr, ht, exceptBindOk, exceptPureBind];
       simp only [netTokens, instTokens, targetTokens, dfltccTokens, extraTokens,
         List.cons_append, List.nil_append, List.append_nil, joinSpace,
         String.append_assoc];
       rfl)
  | Multipath m =>
    simp only [DiskConfig.install_target, MultipathDisks.install_target] at ht
    by_cases hlen : 1 < m.scsi.length
    · rw [if_pos hlen] at ht
      cases ht
      have hmt : m.install_target = Except.ok "/dev/mapper/mpatha" := by
        simp [MultipathDisks.install_target, hlen]
      have hmap : m.scsi.map (fun x => "rd.zfcp=" ++ x) ≠ [] := by
        intro hc
        rw [List.map_eq_nil_iff] at hc
        rw [hc] at hlen
        simp at hlen
      cases dfl <;> cases extra <;>
        (simp only [parm, hr, hmt, exceptBindOk, exceptPureBind];
         simp only [netTokens, instTokens, targetTokens, dfltccTokens, extraTokens,
           List.cons_append, List.nil_append, List.append_nil, List.append_assoc,
           List.singleton_append, List.append_eq, joinSpace];
         rw [joinSpace_cons_ne _ _ (by simp), joinSpace_append _ _ hmap (by simp)];
         simp only [joinSpace, String.append_assoc];
         rfl)
    · rw [if_neg hlen] at ht
      cases ht

/-- Witness for C7 at the sample configuration, whose parameter line is
also spelled out as a literal. -/
theorem parm_token_order_witness :
    parm "/tmp" cfgSample = .ok (joinSpace (netTokens cfgSample ++
      instTokens cfgSample "http://h/r" ++ targetTokens cfgSample "sda" ++
      dfltccTokens cfgSample ++ extraTokens cfgSample)) ∧
    parm "/tmp" cfgSample = .ok parmSample :=
  ⟨parm_token_order "/tmp" cfgSample "http://h/r" "sda" rfl rfl, rfl⟩

/-- C4: on a fully successful run the orchestrator performs its actions in
exactly this order: device setup, then the reader clear twice (each clear
being the spool-to-reader step followed by the purge-all step), then —
after staging the parameter file — the three punches under the fixed
labels coreos.kernel, coreos.parm, coreos.initrd in that order, then the
boot trigger; in particular no artifact is punched before both clears have
completed, and the run returns success. -/
theorem ipl_success_order :
    ∀ (w : World) (cwd : String) (cfg : Config) imgs k i c,
      (∀ e, w.cmdOk e = true) →
      resolveImages cwd cfg = .ok imgs →
      url_to_path imgs.live_kernel = .ok k →
      url_to_path imgs.live_initrd = .ok i →
      parm cwd cfg = .ok c →
      ipl_zvm_guest w cwd cfg ([], []) =
        ((setupTrace w ++
          [Event.vmcpSp cfg.zvm.zvm, Event.vmcpPur cfg.zvm.zvm,
           Event.vmcpSp cfg.zvm.zvm, Event.vmcpPur cfg.zvm.zvm,
           Event.writeParm "cmdline" c,
           Event.punch cfg.zvm.zvm "coreos.kernel" k,
           Event.punch cfg.zvm.zvm "coreos.parm" "cmdline",
           Event.punch cfg.zvm.zvm "coreos.initrd" i,
           Event.xautolog cfg.zvm.zvm], []), .ok ()) := by
  intro w cwd cfg imgs k i c hok hri hk hi hp
  cases hc : w.ignored "c" <;> cases hd : w.ignored "d" <;> cases he : w.ignored "e" <;>
    simp [ipl_zvm_guest, enable_vmur_dev, enableDev, clear, send, boot, runcmd,
      queryIgnored, liftE, mBind, mPure, setupTrace, devTrace, hok, hc, hd, he,
      hri, hk, hi, hp]

/-- Witness for C4: a fully successful run on the sample configuration. -/
theorem ipl_success_order_witness :
    ipl_zvm_guest wAllOk "/tmp" cfgSample ([], []) =
      ((setupTrace wAllOk ++
        [Event.vmcpSp "z", Event.vmcpPur "z", Event.vmcpSp "z", Event.vmcpPur "z",
         Event.writeParm "cmdline" parmSample,
         Event.punch "z" "coreos.kernel" "k",
         Event.punch "z" "coreos.parm" "cmdline",
         Event.punch "z" "coreos.initrd" "i",
         Event.xautolog "z"], []), .ok ()) :=
  ipl_success_order wAllOk "/tmp" cfgSample liveSample "k" "i" parmSample
    (fun _ => rfl) rfl rfl rfl rfl

/-- C5: a failure of the final boot trigger is non-fatal: when device
setup, both reader clears and all three punches succeed and only the
xautolog boot trigger fails, the orchestrator emits the warning and the
manual-recovery instruction and still returns success. -/
theorem ipl_boot_failure_nonfatal :
    ∀ (w : World) (cwd : String) (cfg : Config) imgs k i c,
      (∀ e, e ≠ Event.xautolog cfg.zvm.zvm → w.cmdOk e = true) →
      w.cmdOk (Event.xautolog cfg.zvm.zvm) = false →
      resolveImages cwd cfg = .ok imgs →
      url_to_path imgs.live_kernel = .ok k →
      url_to_path imgs.live_initrd = .ok i →
      parm cwd cfg = .ok c →
      ipl_zvm_guest w cwd cfg ([], []) =
        ((setupTrace w ++
          [Event.vmcpSp cfg.zvm.zvm, Event.vmcpPur cfg.zvm.zvm,
           Event.vmcpSp cfg.zvm.zvm, Event.vmcpPur cfg.zvm.zvm,
           Event.writeParm "cmdline" c,
           Event.punch cfg.zvm.zvm "coreos.kernel" k,
           Event.punch cfg.zvm.zvm "coreos.parm" "cmdline",
           Event.punch cfg.zvm.zvm "coreos.initrd" i,
           Event.xautolog cfg.zvm.zvm],
          ["Starting installation failed: command failed",
           "Please login to zVM and IPL manually: #cp ipl c"]), .ok ()) := by
  intro w cwd cfg imgs k i c hok hfail hri hk hi hp
  cases hc : w.ignored "c" <;> cases hd : w.ignored "d" <;> cases he : w.ignored "e" <;>
    simp [ipl_zvm_guest, enable_vmur_dev, enableDev, clear, send, boot, runcmd,
      queryIgnored, liftE, mBind, mPure, setupTrace, devTrace, hok, hfail, hc, hd, he,
      hri, hk, hi, hp]

/-- Witness for C5: a run on the sample configuration in which only the
boot trigger fails. -/
theorem ipl_boot_failure_nonfatal_witness :
    ipl_zvm_guest wBootFail "/tmp" cfgSample ([], []) =
      ((setupTrace wBootFail ++
        [Event.vmcpSp "z", Event.vmcpPur "z", Event.vmcpSp "z", Event.vmcpPur "z",
         Event.writeParm "cmdline" parmSample,
         Event.punch "z" "coreos.kernel" "k",
         Event.punch "z" "coreos.parm" "cmdline",
         Event.punch "z" "coreos.initrd" "i",
         Event.xautolog "z"],
        ["Starting installation failed: command failed",
         "Please login to zVM and IPL manually: #cp ipl c"]), .ok ()) :=
  ipl_boot_failure_nonfatal wBootFail "/tmp" cfgSample liveSample "k" "i" parmSample
    (fun _ he => decide_eq_true he) (by decide) rfl rfl rfl rfl

/-- Associativity of the orchestrator sequencing. -/
theorem mBind_assoc {α β γ : Type} (x : M α) (f : α → M β) (g : β → M γ) :
    mBind (mBind x f) g = mBind x (fun a => mBind (f a) g) := by
  funext s
  simp only [mBind]
  cases hx : x s with
  | mk s1 r => cases r <;> rfl

/-- Unfolding runAll over a cons. -/
theorem runAll_cons (w : World) (e : Event) (l : List Event) :
    runAll w (e :: l) = mBind (runcmd w e) (fun _ => runAll w l) := rfl

/-- runAll splits over list append. -/
theorem runAll_append (w : World) (xs ys : List Event) :
    runAll w (xs ++ ys) = mBind (runAll w xs) (fun _ => runAll w ys) := by
  induction xs with
  | nil =>
    funext s
    simp [runAll, mBind, mPure]
  | cons a t ih =>
    simp only [List.cons_append, runAll, List.append_eq, ih, mBind_assoc]

/-- Two sequenced runAll blocks merge into the runAll of the appended
lists, under any continuation. -/
theorem mBind_runAll_append {γ : Type} (w : World) (A B : List Event) (k : Unit → M γ) :
    mBind (runAll w A) (fun _ => mBind (runAll w B) k) = mBind (runAll w (A ++ B)) k := by
  simp only [runAll_append, mBind_assoc]

/-- One device-loop iteration behaves exactly as the sequential execution
of its actions. -/
theorem enableDev_eq (w : World) (id : String) :
    enableDev w id = runAll w (devTrace w id) := by
  funext s
  obtain ⟨tr, ws⟩ := s
  cases hb : w.ignored id
  · cases h1 : w.cmdOk (Event.cioIsIgnored id) <;>
      cases h3 : w.cmdOk (Event.chccwdev id) <;>
      simp [enableDev, devTrace, runAll, runcmd, queryIgnored, mBind, mPure, hb, h1, h3]
  · cases h1 : w.cmdOk (Event.cioIsIgnored id) <;>
      cases h2 : w.cmdOk (Event.cioRemove id) <;>
      cases h3 : w.cmdOk (Event.chccwdev id) <;>
      simp [enableDev, devTrace, runAll, runcmd, queryIgnored, mBind, mPure, hb, h1, h2, h3]

/-- Device setup behaves exactly as the sequential execution of the setup
actions. -/
theorem enable_vmur_dev_eq (w : World) :
    enable_vmur_dev w = runAll w (setupTrace w) := by
  rw [setupTrace, runAll_cons]
  simp only [enable_vmur_dev, enableDev_eq, ← runAll_append, List.append_assoc]

/-- A reader clear behaves exactly as the sequential execution of its two
commands. -/
theorem clear_eq (w : World) (z : String) :
    clear w z = runAll w [Event.vmcpSp z, Event.vmcpPur z] := by
  funext s
  obtain ⟨tr, ws⟩ := s
  cases h1 : w.cmdOk (Event.vmcpSp z) <;>
    cases h2 : w.cmdOk (Event.vmcpPur z) <;>
    simp [clear, runAll, runcmd, mBind, mPure, h1, h2]

/-- Under successful image and parameter resolution, the transfer step
behaves exactly as the sequential execution of the parameter-file write
and the three punches. -/
theorem send_eq (w : World) (cwd : String) (cfg : Config) (imgs : LiveImages)
    (k i c : String)
    (hri : resolveImages cwd cfg = .ok imgs)
    (hk : url_to_path imgs.live_kernel = .ok k)
    (hi : url_to_path imgs.live_initrd = .ok i)
    (hp : parm cwd cfg = .ok c) :
    send w cwd cfg = runAll w
      [Event.writeParm "cmdline" c,
       Event.punch cfg.zvm.zvm "coreos.kernel" k,
       Event.punch cfg.zvm.zvm "coreos.parm" "cmdline",
       Event.punch cfg.zvm.zvm "coreos.initrd" i] := by
  funext s
  obtain ⟨tr, ws⟩ := s
  cases h1 : w.cmdOk (Event.writeParm "cmdline" c) <;>
    cases h2 : w.cmdOk (Event.punch cfg.zvm.zvm "coreos.kernel" k) <;>
    cases h3 : w.cmdOk (Event.punch cfg.zvm.zvm "coreos.parm" "cmdline") <;>
    cases h4 : w.cmdOk (Event.punch cfg.zvm.zvm "coreos.initrd" i) <;>
    simp [send, runAll, runcmd, mBind, mPure, liftE, hri, hk, hi, hp, h1, h2, h3, h4]

/-- A sequential command run whose commands succeed up to a failing
command e aborts at e: the trace is exactly the successful prefix plus e,
and the result is the error. -/
theorem runAll_first_failure (w : World) (pre : List Event) (e : Event) (post : List Event)
    (hok : ∀ x ∈ pre, w.cmdOk x = true) (hfail : w.cmdOk e = false) :
    ∀ tr ws, runAll w (pre ++ e :: post) (tr, ws) =
      ((tr ++ pre ++ [e], ws), .error "command failed") := by
  induction pre with
  | nil =>
    intro tr ws
    simp [runAll, runcmd, mBind, hfail]
  | cons a t ih =>
    intro tr ws
    have ha : w.cmdOk a = true := hok a (by simp)
    have ih2 := ih (fun x hx => hok x (by simp [hx])) (tr ++ [a]) ws
    simp [runAll, runcmd, mBind, ha, ih2]

/-- The boot trigger never occurs among the device-setup actions. -/
theorem xautolog_not_in_setup (w : World) (z : String) :
    Event.xautolog z ∉ setupTrace w := by
  cases hc : w.ignored "c" <;> cases hd : w.ignored "d" <;> cases he : w.ignored "e" <;>
    simp [setupTrace, devTrace, hc, hd, he]

/-- C6: every failure of device setup, reader clearing, the parameter-file
write or any punch step aborts the run immediately with an error and no
later step is attempted: for every decomposition of the fatal-step command
sequence around a failing command e whose predecessors all succeed, the
run ends with exactly the successful prefix plus e in its trace, the error
result, and no boot trigger; in particular, when the second punch (the
parameter file) fails, the initrd is never punched and the boot trigger is
never issued. -/
theorem ipl_fatal_step_aborts :
    (∀ (w : World) (cwd : String) (cfg : Config) imgs k i c
        (pre post : List Event) (e : Event),
      resolveImages cwd cfg = .ok imgs →
      url_to_path imgs.live_kernel = .ok k →
      url_to_path imgs.live_initrd = .ok i →
      parm cwd cfg = .ok c →
      setupTrace w ++
        [Event.vmcpSp cfg.zvm.zvm, Event.vmcpPur cfg.zvm.zvm,
         Event.vmcpSp cfg.zvm.zvm, Event.vmcpPur cfg.zvm.zvm,
         Event.writeParm "cmdline" c,
         Event.punch cfg.zvm.zvm "coreos.kernel" k,
         Event.punch cfg.zvm.zvm "coreos.parm" "cmdline",
         Event.punch cfg.zvm.zvm "coreos.initrd" i] = pre ++ e :: post →
      (∀ x ∈ pre, w.cmdOk x = true) → w.cmdOk e = false →
      ipl_zvm_guest w cwd cfg ([], []) = ((pre ++ [e], []), .error "command failed") ∧
      Event.xautolog cfg.zvm.zvm ∉ pre ++ [e]) ∧
    (∀ (w : World) (cwd : String) (cfg : Config) imgs k i c,
      (∀ e, e ≠ Event.punch cfg.zvm.zvm "coreos.parm" "cmdline" → w.cmdOk e = true) →
      w.cmdOk (Event.punch cfg.zvm.zvm "coreos.parm" "cmdline") = false →
      resolveImages cwd cfg = .ok imgs →
      url_to_path imgs.live_kernel = .ok k →
      url_to_path imgs.live_initrd = .ok i →
      parm cwd cfg = .ok c →
      ∃ tr, ipl_zvm_guest w cwd cfg ([], []) = ((tr, []), .error "command failed") ∧
        (∀ f, Event.punch cfg.zvm.zvm "coreos.initrd" f ∉ tr) ∧
        Event.xautolog cfg.zvm.zvm ∉ tr) := by
  constructor
  · intro w cwd cfg imgs k i c pre post e hri hk hi hp hdec hok hfail
    have hiplEq : ipl_zvm_guest w cwd cfg =
        mBind (runAll w (setupTrace w ++
          [Event.vmcpSp cfg.zvm.zvm, Event.vmcpPur cfg.zvm.zvm,
           Event.vmcpSp cfg.zvm.zvm, Event.vmcpPur cfg.zvm.zvm,
           Event.writeParm "cmdline" c,
           Event.punch cfg.zvm.zvm "coreos.kernel" k,
           Event.punch cfg.zvm.zvm "coreos.parm" "cmdline",
           Event.punch cfg.zvm.zvm "coreos.initrd" i]))
          (fun _ => boot w cfg.zvm.zvm) := by
      simp only [ipl_zvm_guest, enable_vmur_dev_eq, clear_eq,
        send_eq w cwd cfg imgs k i c hri hk hi hp]
      simp only [mBind_runAll_append]
      simp
    have hrun := runAll_first_failure w pre e post hok hfail [] []
    constructor
    · rw [hiplEq, hdec]
      simp [mBind, hrun]
    · intro hmem
      have hfull : Event.xautolog cfg.zvm.zvm ∈ pre ++ e :: post := by
        rcases List.mem_append.mp hmem with h | h
        · exact List.mem_append.mpr (Or.inl h)
        · simp at h
          rw [h]
          exact List.mem_append.mpr (Or.inr (by simp))
      rw [← hdec] at hfull
      rcases List.mem_append.mp hfull with h | h
      · exact xautolog_not_in_setup w cfg.zvm.zvm h
      · simp at h
  · intro w cwd cfg imgs k i c hok hfail hri hk hi hp
    refine ⟨setupTrace w ++
      [Event.vmcpSp cfg.zvm.zvm, Event.vmcpPur cfg.zvm.zvm,
       Event.vmcpSp cfg.zvm.zvm, Event.vmcpPur cfg.zvm.zvm,
       Event.writeParm "cmdline" c,
       Event.punch cfg.zvm.zvm "coreos.kernel" k,
       Event.punch cfg.zvm.zvm "coreos.parm" "cmdline"], ?_, ?_, ?_⟩
    · cases hc : w.ignored "c" <;> cases hd : w.ignored "d" <;> cases he : w.ignored "e" <;>
        simp [ipl_zvm_guest, enable_vmur_dev, enableDev, clear, send, boot, runcmd,
          queryIgnored, liftE, mBind, mPure, setupTrace, devTrace, hok, hfail, hc, hd, he,
          hri, hk, hi, hp]
    · intro f
      cases hc : w.ignored "c" <;> cases hd : w.ignored "d" <;> cases he : w.ignored "e" <;>
        simp [setupTrace, devTrace, hc, hd, he]
    · cases hc : w.ignored "c" <;> cases hd : w.ignored "d" <;> cases he : w.ignored "e" <;>
        simp [setupTrace, devTrace, hc, hd, he]

/-- Witness for C6: on the sample configuration, a failing spool-to-reader
clear aborts the run right after device setup with no boot trigger, and a
failing parameter-file punch aborts before the initrd punch and the boot
trigger. -/
theorem ipl_fatal_step_aborts_witness :
    (ipl_zvm_guest wSpFail "/tmp" cfgSample ([], []) =
      (([Event.modprobe "vmur", Event.cioIsIgnored "c", Event.chccwdev "c",
         Event.cioIsIgnored "d", Event.chccwdev "d", Event.cioIsIgnored "e",
         Event.chccwdev "e", Event.vmcpSp "z"], []), .error "command failed") ∧
      Event.xautolog "z" ∉
        ([Event.modprobe "vmur", Event.cioIsIgnored "c", Event.chccwdev "c",
          Event.cioIsIgnored "d", Event.chccwdev "d", Event.cioIsIgnored "e",
          Event.chccwdev "e"] ++ [Event.vmcpSp "z"])) ∧
    (∃ tr, ipl_zvm_guest wParmFail "/tmp" cfgSample ([], []) =
        ((tr, []), .error "command failed") ∧
      (∀ f, Event.punch "z" "coreos.initrd" f ∉ tr) ∧
      Event.xautolog "z" ∉ tr) :=
  ⟨ipl_fatal_step_aborts.1 wSpFail "/tmp" cfgSample liveSample "k" "i" parmSample
      [Event.modprobe "vmur", Event.cioIsIgnored "c", Event.chccwdev "c",
       Event.cioIsIgnored "d", Event.chccwdev "d", Event.cioIsIgnored "e",
       Event.chccwdev "e"]
      [Event.vmcpPur "z", Event.vmcpSp "z", Event.vmcpPur "z",
       Event.writeParm "cmdline" parmSample,
       Event.punch "z" "coreos.kernel" "k",
       Event.punch "z" "coreos.parm" "cmdline",
       Event.punch "z" "coreos.initrd" "i"]
      (Event.vmcpSp "z")
      rfl rfl rfl rfl rfl (by decide) (by decide),
   ipl_fatal_step_aborts.2 wParmFail "/tmp" cfgSample liveSample "k" "i" parmSample
      (fun _ he => decide_eq_true he) (by decide) rfl rfl rfl rfl⟩

end ZvmHelper
